import Mathlib

/-!
Verification of the daily coaching-report pipeline (src/scripts/transcribe.py).

The script is embedded shallowly:

* JSON field values that the script reads through `dict.get` are modelled by
  `PyVal` (`None`, an integer, or a string); an absent key is `Option.none`.
* Python's `int(x or 0)` coercion is `getDur`; a coercion that Python would
  abort with an exception (for example `int("abc")`) is `Option.none`, and the
  script-level quantities that such an exception would prevent from being
  computed (`total_secs`, `avg_secs`, the rendered report) are `Option`-valued.
* `int(total_secs/total_calls)` is modelled as truncating division `Int.tdiv`
  (exact for every value whose magnitude a float represents exactly; float
  rounding of astronomically large sums is out of the model's scope), and
  `divmod(total_secs, 60)` as `Int.fdiv`/`Int.emod`, Python's floor semantics.
* The regular expressions of the script are fixed patterns of the shape
  `\b escaped-literal \b` or alternations of literals, so they are embedded as
  literal-phrase matching with explicit word-boundary tests (`boundedAt`);
  `\w` is modelled as ASCII `[A-Za-z0-9_]` and `str.lower` as ASCII lowering,
  which agree with Python on the ASCII texts used throughout.  The cue regexes
  of `extract_followups` are expanded into their finite lists of literal
  alternatives (`cue1` … `cue4`).
* `re.findall`/`re.finditer` counting is the left-to-right non-overlapping
  scan `scanBounded`/`scanAlts` (on a match the scan resumes after it, else it
  advances one position), exactly the regex engine's behaviour for these
  literal patterns.
* The transcript dictionary is an association list in insertion order
  (`"\n".join(texts.values())` is `combinedOf`); its keys, produced by
  `read_texts` from `*.txt` file stems, are unique and never empty.
* `extract_followups` inserts snippets into a Python `set` and returns
  `list(found)[:10]`.  A set's iteration order over strings is unspecified and
  varies with the per-process hash seed, so the embedding takes the
  enumeration as a parameter `enum`: the code's possible behaviours are
  exactly `extract_followups enum` for the functions `enum` that permute their
  argument (`∀ l, List.Perm (enum l) l`), applied to the first-occurrence
  list of the set's elements.
* `sorted(items, key=score_item, reverse=True)` is a stable descending sort;
  it is embedded as `List.insertionSort` with the relation
  `keyRel key a b := key b ≤ key a`, which places an earlier element before a
  later one of equal key — the stability Python guarantees.  The same sort
  embeds `sorted(intent_counts.items(), key=lambda x: -x[1])` (stable
  ascending by negated count = stable descending by count).
* `Path(file).stem` is `stemOf`, following pathlib's `name`/`suffix` rule
  (`stem = name[:i]` when the last dot index `i` satisfies
  `0 < i < len(name)-1`); the '.'/'..' special components that pathlib drops
  do not occur in the inputs considered.
-/

/-- A JSON scalar as the script sees it: `None`, an integer, or a string. -/
inductive PyVal
  | vNone
  | vInt (n : Int)
  | vStr (s : String)
  deriving DecidableEq

open PyVal

/-- One manifest entry; each field is absent (`none`) or a `PyVal`. -/
structure CallRecord where
  file : Option PyVal
  direction : Option PyVal
  durationSec : Option PyVal
  whenV : Option PyVal
  remoteNumber : Option PyVal
  deriving DecidableEq

/-- Python truthiness of a scalar: `None`, `0` and `""` are falsy. -/
def truthy : PyVal → Bool
  | vNone => false
  | vInt n => n != 0
  | vStr s => s != ""

/-- Python `a or b` for scalars. -/
def pyOr (a b : PyVal) : PyVal := if truthy a then a else b

/-- Python `str(x)` for the scalars that occur. -/
def pyStr : PyVal → String
  | vNone => "None"
  | vInt n => toString n
  | vStr s => s

/-- Characters Python's `str.strip()` removes (ASCII whitespace). -/
def isSpacePy (c : Char) : Bool :=
  c == ' ' || c == '\t' || c == '\n' || c == '\r' || c.toNat == 11 || c.toNat == 12

/-- `str.strip()` on a character list. -/
def stripPy (cs : List Char) : List Char :=
  ((cs.dropWhile isSpacePy).reverse.dropWhile isSpacePy).reverse

/-- ASCII lowering of one character, the fragment of `str.lower` the texts use. -/
def lowerChar (c : Char) : Char :=
  if 65 ≤ c.toNat ∧ c.toNat ≤ 90 then Char.ofNat (c.toNat + 32) else c

/-- ASCII lowering of a character list. -/
def lowerList (cs : List Char) : List Char := cs.map lowerChar

/-- ASCII lowering of a string (`str.lower`). -/
def lowerStr (s : String) : String := String.mk (lowerList s.data)

/-- Digit run to a number, `none` when empty or not all digits. -/
def digitsToNat (cs : List Char) : Option Nat :=
  if cs ≠ [] ∧ cs.all Char.isDigit then
    some (cs.foldl (fun a c => a * 10 + (c.toNat - 48)) 0)
  else none

/-- Python `int(s)` on a string: strip, optional sign, digits; else an error. -/
def parsePyInt (s : String) : Option Int :=
  match stripPy s.data with
  | '-' :: rest => (digitsToNat rest).map (fun n => -(n : Int))
  | '+' :: rest => (digitsToNat rest).map (fun n => (n : Int))
  | cs => (digitsToNat cs).map (fun n => (n : Int))

/-- Python `int(x)` on a scalar; `none` models the exception Python raises. -/
def pyInt : PyVal → Option Int
  | vNone => none
  | vInt n => some n
  | vStr s => parsePyInt s

/-- `int(i.get("durationSec", 0) or 0)`, the script's duration coercion. -/
def getDur (r : CallRecord) : Option Int :=
  pyInt (pyOr (r.durationSec.getD (vInt 0)) (vInt 0))

/-- `sum(int(i.get("durationSec",0) or 0) for i in items)`; `none` models the
exception a malformed duration raises. -/
def total_secs : List CallRecord → Option Int
  | [] => some 0
  | r :: rs =>
    match getDur r, total_secs rs with
    | some d, some s => some (d + s)
    | _, _ => none

/-- `avg_secs = int(total_secs/total_calls) if total_calls else 0`. -/
def avg_secs (items : List CallRecord) : Option Int :=
  (total_secs items).map (fun ts =>
    if items.length = 0 then 0 else Int.tdiv ts (items.length : Int))

/-- Count of records whose lowered `direction` string equals `d`. -/
def dirCount (items : List CallRecord) (d : String) : Nat :=
  (items.filter (fun r => lowerStr (pyStr (r.direction.getD (vStr ""))) == d)).length

/-- `sum(1 for i in items if str(i.get("direction","")).lower() == "inbound")`. -/
def inboundOf (items : List CallRecord) : Nat := dirCount items "inbound"

/-- As `inboundOf`, for "outbound". -/
def outboundOf (items : List CallRecord) : Nat := dirCount items "outbound"

/-- Python `sep.join(parts)` (structural, so that it evaluates in the kernel). -/
def joinSep (sep : String) : List String → String
  | [] => ""
  | [x] => x
  | x :: y :: xs => x ++ sep ++ joinSep sep (y :: xs)

/-- `"\n".join(texts.values())`, the day's combined transcript. -/
def combinedOf (texts : List (String × String)) : String :=
  joinSep "\n" (texts.map (fun kv => kv.2))

/-- A regex word character (`\w`), ASCII fragment. -/
def isWordChar (c : Char) : Bool := c.isAlphanum || c == '_'

/-- Wordness of the character at `i`, out-of-range counting as non-word. -/
def wordAt (text : List Char) (i : Nat) : Bool := isWordChar (text.getD i ' ')

/-- A regex `\b` holds at position `i`: wordness changes there. -/
def boundaryAt (text : List Char) (i : Nat) : Bool :=
  (if i = 0 then false else wordAt text (i - 1)) != wordAt text i

/-- The pattern `\b p \b` (for a literal `p`) matches `text` at position `i`. -/
def boundedAt (text p : List Char) (i : Nat) : Bool :=
  !p.isEmpty && p.isPrefixOf (text.drop i) && boundaryAt text i &&
    boundaryAt text (i + p.length)

/-- Left-to-right non-overlapping scan counting `\b p \b` matches; the fuel,
passed as `text.length + 1`, bounds the strictly increasing position. -/
def scanBoundedAux (text p : List Char) : Nat → Nat → Nat
  | 0, _ => 0
  | Nat.succ fuel, i =>
    if boundedAt text p i then 1 + scanBoundedAux text p fuel (i + p.length)
    else if i < text.length then scanBoundedAux text p fuel (i + 1)
    else 0

/-- `len(re.findall(r"\b" + re.escape(p) + r"\b", text))` for a literal `p`. -/
def scanBounded (text p : List Char) : Nat := scanBoundedAux text p (text.length + 1) 0

/-- `count_keywords(text, terms)`: per-term bounded counts over the lowered
text, an association list in the vocabulary's order (the dict's order). -/
def count_keywords (text : String) (terms : List String) : List (String × Nat) :=
  terms.map (fun t => (t, scanBounded (lowerList text.data) (lowerList t.data)))

/-- `\b p \b` matches somewhere in `text` (`re.search` of one alternative). -/
def existsBounded (text p : List Char) : Bool :=
  (List.range (text.length + 1)).any (fun i => boundedAt text p i)

/-- Plain substring occurrence (`p in text`). -/
def containsSub (text p : List Char) : Bool :=
  (List.range (text.length + 1)).any (fun i => p.isPrefixOf (text.drop i))

/-- `any_phrase(text, phrases)`: any phrase a substring of the lowered text. -/
def any_phrase (txt : String) (phrases : List String) : Bool :=
  phrases.any (fun p => containsSub (lowerList txt.data) p.data)

/-- Scan counting non-overlapping matches of an alternation of literals; at
each position the first alternative that matches wins (the regex engine's
rule), and the scan resumes after it. -/
def scanAltsAux (text : List Char) (ps : List (List Char)) : Nat → Nat → Nat
  | 0, _ => 0
  | Nat.succ fuel, i =>
    match ps.find? (fun p => !p.isEmpty && p.isPrefixOf (text.drop i)) with
    | some p => 1 + scanAltsAux text ps fuel (i + p.length)
    | none => if i < text.length then scanAltsAux text ps fuel (i + 1) else 0

/-- `sum(1 for _ in re.finditer("|".join(map(re.escape, ps)), text))`. -/
def scanAlts (text : List Char) (ps : List (List Char)) : Nat :=
  scanAltsAux text ps (text.length + 1) 0

/-- The script's `intent_terms` vocabulary. -/
def intent_terms : List String :=
  ["meeting", "meet", "book", "booking", "demo", "trial", "quote", "proposal",
   "next step", "follow up"]

/-- The script's `ask_phrases`. -/
def ask_phrases : List String :=
  ["can we book", "shall we book", "how about", "does tuesday work",
   "can i book", "let's schedule", "let us schedule"]

/-- The script's `objection_buckets`, in dict insertion order. -/
def objection_buckets : List (String × List String) :=
  [("Price", ["too expensive", "budget", "cost", "price", "pricing"]),
   ("Timing", ["busy", "later", "not now", "q4", "q1", "after", "next month",
               "too soon"]),
   ("Authority", ["need approval", "my boss", "decision maker", "sign off",
                  "sign-off", "committee"]),
   ("Competitor", ["we already use", "switching from", "competitor",
                   "alternative", "another vendor"]),
   ("Fit", ["not relevant", "not a fit", "don’t need", "no need",
            "covered already"])]

/-- The short boost list of `score_item`. -/
def meetingWords : List String := ["meeting", "demo", "quote", "proposal"]

/-- `ask_rate`: 0 for an empty combined text, else the alternation count. -/
def askRateOf (combined : String) : Nat :=
  if combined = "" then 0
  else scanAlts (lowerList combined.data) (ask_phrases.map (fun p => p.data))

/-- `intent_counts`: keyword counts, or all-zero when the text is empty. -/
def intentCountsOf (combined : String) : List (String × Nat) :=
  if combined ≠ "" then count_keywords combined intent_terms
  else intent_terms.map (fun t => (t, 0))

/-- Sum of a list of counts. -/
def sumNats (l : List Nat) : Nat := l.foldl (· + ·) 0

/-- `objections`: per theme the summed phrase counts, 0 when the text is empty. -/
def objectionsOf (combined : String) : List (String × Nat) :=
  objection_buckets.map (fun kv =>
    (kv.1, if combined ≠ "" then
             sumNats ((count_keywords combined kv.2).map (fun x => x.2))
           else 0))

/-- `m.get(k, 0)` on a counts association list. -/
def lookupCount (m : List (String × Nat)) (k : String) : Nat :=
  ((m.find? (fun kv => kv.1 == k)).map (fun kv => kv.2)).getD 0

/-- Concatenation of a list of lists. -/
def concatAll {α : Type} : List (List α) → List α
  | [] => []
  | x :: xs => x ++ concatAll xs

/-- Expansion of the first cue regex,
`\b(i('ll| will) (send|email|call|follow up|follow-up|reach out))\b`. -/
def cue1 : List String :=
  concatAll (["send", "email", "call", "follow up", "follow-up", "reach out"].map
    (fun v => ["i'll " ++ v, "i will " ++ v]))

/-- Expansion of the second cue regex, `\b(we('ll| will) (send|email|call|follow up))\b`. -/
def cue2 : List String :=
  concatAll (["send", "email", "call", "follow up"].map
    (fun v => ["we'll " ++ v, "we will " ++ v]))

/-- The third cue regex's alternatives. -/
def cue3 : List String :=
  ["can you email", "please email", "send me", "share the proposal",
   "share a quote"]

/-- Expansion of the fourth cue regex,
`\b(book(ed)? (it|for)|schedule(d)?|tomorrow|next (week|tuesday|...|friday))\b`. -/
def cue4 : List String :=
  ["book it", "book for", "booked it", "booked for", "schedule", "scheduled",
   "tomorrow", "next week", "next tuesday", "next wednesday", "next thursday",
   "next friday"]

/-- The cue patterns of `extract_followups`, in order. -/
def cues : List (List String) := [cue1, cue2, cue3, cue4]

/-- `re.search(pat, line, flags=re.I)` succeeds for some cue pattern:
some expanded alternative occurs word-bounded in the lowered line. -/
def lineMatchesCue (line : String) : Bool :=
  cues.any (fun c => c.any (fun p =>
    existsBounded (lowerList line.data) (lowerList p.data)))

/-- First `n` characters of a string (`s[:n]`). -/
def takeChars (n : Nat) (s : String) : String := String.mk (s.data.take n)

/-- Split a character list at newlines (accumulator-based, kernel-reducible). -/
def splitNLAux : List Char → List Char → List (List Char)
  | acc, [] => [acc.reverse]
  | acc, c :: rest =>
    if c = '\n' then acc.reverse :: splitNLAux [] rest
    else splitNLAux (c :: acc) rest

/-- Python `str.splitlines()` for newline-separated text (no trailing empty
piece for a trailing newline). -/
def splitLinesPy (s : String) : List String :=
  if s.data = [] then []
  else
    let parts := (splitNLAux [] s.data).map String.mk
    if s.data.getLast? = some '\n' then parts.dropLast else parts

/-- The stripped, 180-character-truncated matching lines of one transcript, in
the order the lines occur — the insertion sequence into the script's `found`
set. -/
def matchedSnippets (t : String) : List String :=
  (splitLinesPy t).filterMap (fun line =>
    let ll := stripStr line
    if lineMatchesCue ll then some (takeChars 180 ll) else none)
where
  stripStr (s : String) : String := String.mk (stripPy s.data)

/-- First-occurrence deduplication (the contents of the `found` set, listed in
insertion order). -/
def dedupFirstAux : List String → List String → List String
  | _, [] => []
  | seen, x :: xs =>
    if seen.contains x then dedupFirstAux seen xs
    else x :: dedupFirstAux (x :: seen) xs

/-- First-occurrence deduplication of a list. -/
def dedupFirst (l : List String) : List String := dedupFirstAux [] l

/-- `extract_followups(text)` = `list(found)[:10]`, with the set's unspecified
enumeration order abstracted as `enum` (a permutation of the insertion-order
list of distinct snippets). -/
def extract_followups (enum : List String → List String) (t : String) : List String :=
  (enum (dedupFirst (matchedSnippets t))).take 10

/-- The aggregated, order-preserving deduplicated follow-up list (script lines
89–93), under set enumeration `enum`. -/
def followupsOf (enum : List String → List String)
    (texts : List (String × String)) : List String :=
  dedupFirst (concatAll ((texts.map (fun kv => kv.2)).map (extract_followups enum)))

/-- Modelled from the spec's words, for comparison with `extract_followups`:
per transcript the FIRST 10 matching lines, in the order they appear. -/
def specFollowupsPerT (t : String) : List String := (matchedSnippets t).take 10

/-- `Path(s).name`: the last path component, trailing slashes dropped. -/
def lastComponent (cs : List Char) : List Char :=
  ((cs.reverse.dropWhile (fun c => c == '/')).takeWhile (fun c => !(c == '/'))).reverse

/-- Index of the last '.' of a name, when it has one. -/
def lastDotIdx (name : List Char) : Option Nat :=
  (name.reverse.findIdx? (fun c => c == '.')).map (fun j => name.length - 1 - j)

/-- pathlib's stem rule on a name: drop the suffix when `0 < i < len - 1`. -/
def stemOfName (name : List Char) : List Char :=
  match lastDotIdx name with
  | some i => if 0 < i ∧ i + 1 < name.length then name.take i else name
  | none => name

/-- `Path(s).stem`. -/
def stemOf (s : String) : String := String.mk (stemOfName (lastComponent s.data))

/-- `texts.get(stem, "")` on the transcript association list. -/
def lookupTexts (texts : List (String × String)) (k : String) : String :=
  ((texts.find? (fun kv => kv.1 == k)).map (fun kv => kv.2)).getD ""

/-- `Path(str(it.get("file",""))).stem`. -/
def resolvedStem (it : CallRecord) : String :=
  stemOf (pyStr (it.file.getD (vStr "")))

/-- The transcript `score_item` resolves for a record (absent stem → ""). -/
def resolvedText (texts : List (String × String)) (it : CallRecord) : String :=
  lookupTexts texts (resolvedStem it)

/-- `score_item(it)`: duration plus the two content boosts; `none` models the
exception a malformed duration raises. -/
def score_item (texts : List (String × String)) (it : CallRecord) : Option Int :=
  (getDur it).map (fun s =>
    s + (if any_phrase (resolvedText texts it) intent_terms then 180 else 0)
      + (if any_phrase (resolvedText texts it) meetingWords then 240 else 0))

/-- The defined score of a record (used only where every score is defined). -/
def scoreD (texts : List (String × String)) (it : CallRecord) : Int :=
  (score_item texts it).getD 0

/-- The ordering `sorted(key=key, reverse=True)` realises: an element goes
before another iff its key is ≥ — a stable descending comparison. -/
def keyRel {α : Type} (key : α → Int) (a b : α) : Prop := key b ≤ key a

instance {α : Type} (key : α → Int) : DecidableRel (keyRel key) :=
  fun a b => Int.decLe (key b) (key a)

instance {α : Type} (key : α → Int) : IsTotal α (keyRel key) :=
  ⟨fun a b => le_total (key b) (key a)⟩

instance {α : Type} (key : α → Int) : IsTrans α (keyRel key) :=
  ⟨fun _ _ _ hab hbc => le_trans hbc hab⟩

/-- `sorted(items, key=score_item, reverse=True)`: Python's stable sort,
embedded as insertion sort over `keyRel`. -/
def sortedCalls (texts : List (String × String)) (items : List CallRecord) :
    List CallRecord :=
  List.insertionSort (keyRel (scoreD texts)) items

/-- `top_calls = sorted(items, key=score_item, reverse=True)[:5]`; `none` when
some record's duration coercion would raise inside the sort. -/
def top_calls (texts : List (String × String)) (items : List CallRecord) :
    Option (List CallRecord) :=
  if items.all (fun r => (score_item texts r).isSome) then
    some ((sortedCalls texts items).take 5)
  else none

/-- The aggregate quantities the recommendation rules read. -/
structure Metrics where
  total_calls : Nat
  ask_rate : Nat
  price : Nat
  authority : Nat
  inbound : Nat
  outbound : Nat
  avg_secs : Int
  demo_count : Nat
  meeting_count : Nat
  deriving DecidableEq

/-- Rule-1 recommendation, first branch (script line 110). -/
def recIncreaseAsks : String :=
  "Increase direct meeting asks — aim for **1–2 explicit asks per call** (try a clean 10-second CTA)."

/-- Rule-1 recommendation, elif branch (script line 112). -/
def recRaiseFreq : String :=
  "Raise the meeting-ask frequency — target **~30–40%** of conversations to include a concrete scheduling ask."

/-- Price rule recommendation (script line 114). -/
def recPrice : String :=
  "Tighten value framing before price; lead with outcome + reference story, then budget."

/-- Authority rule recommendation (script line 116). -/
def recAuthority : String :=
  "Early authority check — confirm decision process by minute 2 and propose a **joint follow-up** with the approver."

/-- Cold-call rule recommendation (script line 118). -/
def recColdCalls : String :=
  "Lengthen qualifying on cold calls — shoot for **~3–4 minutes** with 3 discovery questions before the ask."

/-- Two-line-pitch rule recommendation (script line 120). -/
def recTwoLine : String :=
  "Trial a **two-line pitch** and a single outcome ask to simplify the close."

/-- Default baseline recommendation (script line 122). -/
def recBaseline : String :=
  "Solid baseline — maintain structure; next step: test **time-boxed closes** (\"I have Tue 10:30 or 15:00 — which suits?\")."

/-- The conditioned recommendations (script lines 108–120), in rule order. -/
def condRecs (m : Metrics) : List String :=
  (if m.ask_rate = 0 ∧ 0 < m.total_calls then [recIncreaseAsks]
   else if m.ask_rate < max 1 (m.total_calls / 3) then [recRaiseFreq]
   else [])
  ++ (if 3 ≤ m.price then [recPrice] else [])
  ++ (if 2 ≤ m.authority then [recAuthority] else [])
  ++ (if m.inbound < m.outbound ∧ m.avg_secs < 120 then [recColdCalls] else [])
  ++ (if m.demo_count + m.meeting_count = 0 ∧ 0 < m.total_calls then [recTwoLine]
      else [])

/-- `recs`: the conditioned rules, or the baseline when none fired. -/
def recsOf (m : Metrics) : List String :=
  if condRecs m = [] then [recBaseline] else condRecs m

/-- The metrics the script computes, given the already-summed `total_secs`. -/
def metricsCore (items : List CallRecord) (texts : List (String × String))
    (ts : Int) : Metrics :=
  let combined := combinedOf texts
  let ic := intentCountsOf combined
  { total_calls := items.length
    ask_rate := askRateOf combined
    price := lookupCount (objectionsOf combined) "Price"
    authority := lookupCount (objectionsOf combined) "Authority"
    inbound := inboundOf items
    outbound := outboundOf items
    avg_secs := if items.length = 0 then 0 else Int.tdiv ts (items.length : Int)
    demo_count := lookupCount ic "demo"
    meeting_count := lookupCount ic "meeting" }

/-- The day's metrics; `none` models the duration-coercion exception. -/
def metricsOf (items : List CallRecord) (texts : List (String × String)) :
    Option Metrics :=
  (total_secs items).map (metricsCore items texts)

/-- `f"{k}×{v}"` lines of a counts list. -/
def fmtPairs (l : List (String × Nat)) : List String :=
  l.map (fun kv => kv.1 ++ "×" ++ toString kv.2)

/-- The sort key of `sorted(intent_counts.items(), key=lambda x: -x[1])`. -/
def pairKey (kv : String × Nat) : Int := (kv.2 : Int)

/-- That stable sort: descending by count, ties in dict order. -/
def sortPairsDesc (l : List (String × Nat)) : List (String × Nat) :=
  List.insertionSort (keyRel pairKey) l

/-- The `top_intent` string of the Signals section (script line 138). -/
def topIntentStr (ic : List (String × Nat)) : String :=
  let s := joinSep ", "
    (fmtPairs (((sortPairsDesc ic).filter (fun kv => 0 < kv.2)).take 6))
  if s = "" then "—" else s

/-- The objections line's joined text (script line 141). -/
def objLineStr (obj : List (String × Nat)) : String :=
  joinSep ", " (fmtPairs (obj.filter (fun kv => 0 < kv.2)))

/-- One rendered top-call line (script line 158). -/
def callLine (it : CallRecord) : String :=
  "- " ++ pyStr (it.whenV.getD (vStr "")) ++ "  •  "
    ++ pyStr (it.remoteNumber.getD (vStr "unknown")) ++ "  •  "
    ++ pyStr (it.durationSec.getD (vInt 0)) ++ "s  •  transcript: `"
    ++ resolvedStem it ++ ".txt`"

/-- The report's `body` list (script lines 124–164); `none` models the
duration-coercion exception, `today` the externally-formatted date. -/
def bodyOf (enum : List String → List String) (items : List CallRecord)
    (texts : List (String × String)) (today : String) : Option (List String) :=
  (total_secs items).map (fun ts =>
    let combined := combinedOf texts
    let ic := intentCountsOf combined
    let obj := objectionsOf combined
    let fups := followupsOf enum texts
    let avg : Int := if items.length = 0 then 0 else Int.tdiv ts (items.length : Int)
    let tops := (sortedCalls texts items).take 5
    let recs := recsOf (metricsCore items texts ts)
    ["# Gabriel — Daily Coaching Sheet (" ++ today ++ ")\n",
     "## Summary",
     "- **Calls:** " ++ toString items.length,
     "- **Talk time:** " ++ toString (Int.fdiv ts 60) ++ "m "
       ++ toString (Int.emod ts 60) ++ "s  |  **Avg/call:** " ++ toString avg ++ "s",
     "- **Inbound/Outbound:** " ++ toString (inboundOf items) ++ "/"
       ++ toString (outboundOf items),
     "- **Meeting ask count (approx):** " ++ toString (askRateOf combined)]
    ++ (if items.length = 0 then ["\n_No eligible recordings today._\n"] else [])
    ++ ["\n## Signals"]
    ++ (if combined ≠ "" then
          ["- **Intent keywords:** " ++ topIntentStr ic]
          ++ (if obj.any (fun kv => 0 < kv.2) then
                ["- **Objections (theme counts):** " ++ objLineStr obj]
              else [])
        else ["- (Limited transcript signal today.)"])
    ++ (if fups ≠ [] then
          ["\n## Follow-ups promised today"] ++ (fups.take 8).map (fun f => "- " ++ f)
        else [])
    ++ ["\n## Top calls to review"]
    ++ (if tops ≠ [] then tops.map callLine else ["- —"])
    ++ ["\n## Recommendations for tomorrow"]
    ++ recs.map (fun r => "- " ++ r))

/-- The written report text, `"\n".join(body) + "\n"`. -/
def renderOf (enum : List String → List String) (items : List CallRecord)
    (texts : List (String × String)) (today : String) : Option String :=
  (bodyOf enum items texts today).map (fun b => joinSep "\n" b ++ "\n")

/-- The Scenario B record: one 90-second outbound call. -/
def recB : CallRecord :=
  { file := some (vStr "call1.wav"), direction := some (vStr "Outbound"),
    durationSec := some (vInt 90), whenV := some (vStr "09:00"),
    remoteNumber := some (vStr "+4912345") }

/-- The Scenario B transcript text. -/
def textB : String := "I'll send the proposal tomorrow. Price is too expensive for us."

/-- The Scenario B manifest. -/
def itemsB : List CallRecord := [recB]

/-- The Scenario B transcript map. -/
def textsB : List (String × String) := [("call1", textB)]

/-- A record whose only present field is `durationSec`. -/
def mkDurRec (v : PyVal) : CallRecord :=
  { file := none, direction := none, durationSec := some v, whenV := none,
    remoteNumber := none }

/-- Two records whose durations sum to −5: a negative-total input. -/
def itemsC6cex : List CallRecord := [mkDurRec (vInt (-5)), mkDurRec (vInt 0)]

/-- Two records with durations 5 and 0. -/
def itemsC6w : List CallRecord := [mkDurRec (vInt 5), mkDurRec (vInt 0)]

/-- A transcript line matching the first cue. -/
def lineD1 : String := "i'll send the deck"

/-- A second, distinct line matching the first cue. -/
def lineD2 : String := "i'll call tomorrow"

/-- A transcript with two distinct follow-up-matching lines. -/
def textD : String := lineD1 ++ "\n" ++ lineD2

/-- The transcript map holding `textD`. -/
def textsD : List (String × String) := [("a", textD)]

/-- The report body the script renders for an empty manifest and no
transcripts, as a function of the date string. -/
def bodyA (d : String) : List String :=
  ["# Gabriel — Daily Coaching Sheet (" ++ d ++ ")\n",
   "## Summary",
   "- **Calls:** 0",
   "- **Talk time:** 0m 0s  |  **Avg/call:** 0s",
   "- **Inbound/Outbound:** 0/0",
   "- **Meeting ask count (approx):** 0",
   "\n_No eligible recordings today._\n",
   "\n## Signals",
   "- (Limited transcript signal today.)",
   "\n## Top calls to review",
   "- —",
   "\n## Recommendations for tomorrow",
   "- " ++ recRaiseFreq]

/-- Metrics with one ask and nothing else: no rule fires. -/
def mW7 : Metrics :=
  { total_calls := 0, ask_rate := 1, price := 0, authority := 0, inbound := 0,
    outbound := 0, avg_secs := 0, demo_count := 0, meeting_count := 0 }

/-- A record with no `file` field and a plain duration. -/
def recW10 : CallRecord := mkDurRec (vInt 10)

/-- A transcript map without the empty stem. -/
def textsW10 : List (String × String) := [("a", "hello")]

/-- Three records with durations 100, 100 and 50 and no transcripts. -/
def itemsW9 : List CallRecord :=
  [mkDurRec (vInt 100), mkDurRec (vInt 100), mkDurRec (vInt 50)]

/-- The empty transcript map. -/
def textsW9 : List (String × String) := []

/-- Stability of `orderedInsert` under `keyRel`: inserting `a` does not change
the filter to any key-class beyond prepending `a`'s own contribution — the
filtered result equals the filter of `a :: l`. -/
theorem filter_keyRel_orderedInsert {α : Type} (key : α → Int) (s : Int) (a : α)
    (l : List α) :
    (List.orderedInsert (keyRel key) a l).filter (fun x => key x == s) =
      (a :: l).filter (fun x => key x == s) := by
  induction l with
  | nil => rfl
  | cons b t ih =>
    by_cases hab : keyRel key a b
    · rw [List.orderedInsert, if_pos hab]
    · rw [List.orderedInsert, if_neg hab]
      have hlt : key a < key b := lt_of_not_le hab
      by_cases hb : key b = s
      · have hpa : ¬ (key a = s) := by omega
        simp [List.filter_cons, beq_iff_eq, hb, hpa, ih]
      · simp [List.filter_cons, beq_iff_eq, hb, ih]

/-- Stability of the embedded Python sort: per key-class, the sorted list
keeps the original element order. -/
theorem filter_keyRel_insertionSort {α : Type} (key : α → Int) (s : Int)
    (l : List α) :
    (List.insertionSort (keyRel key) l).filter (fun x => key x == s) =
      l.filter (fun x => key x == s) := by
  induction l with
  | nil => rfl
  | cons a t ih =>
    rw [List.insertionSort, filter_keyRel_orderedInsert]
    simp [List.filter_cons, ih]

/-- C1 (amended): for an empty manifest and no transcripts the Summary shows
`Calls: 0` and `Avg/call: 0s` with the "No eligible recordings today"
placeholder, but the Recommendations section's single line is the
ask-frequency rule (`recRaiseFreq`), not the baseline: with zero calls,
`ask_rate 0 < max(1, 0//3) = 1` fires rule 1's elif branch. -/
theorem spec_C1 (enum : List String → List String) (d : String) :
    bodyOf enum [] [] d = some (bodyA d) := by
  rfl

/-- C1 counterexample: at the concrete empty input the rendered body contains
the ask-frequency recommendation and not the baseline line the claim
requires. -/
theorem spec_C1_cex :
    bodyOf id [] [] "2026-10-12" = some (bodyA "2026-10-12") ∧
    ("- " ++ recBaseline) ∉ bodyA "2026-10-12" ∧
    ("- " ++ recRaiseFreq) ∈ bodyA "2026-10-12" ∧
    recRaiseFreq ≠ recBaseline := by
  decide

/-- C2 (amended): a missing, `None`, zero or empty-string `durationSec` is
coerced to 0 without error, but the coercion does not clamp: any other integer
value — negatives included — passes through unchanged. -/
theorem spec_C2 (r : CallRecord) :
    ((r.durationSec = none ∨ r.durationSec = some vNone ∨
      r.durationSec = some (vInt 0) ∨ r.durationSec = some (vStr "")) →
      getDur r = some 0) ∧
    (∀ n : Int, n ≠ 0 → r.durationSec = some (vInt n) → getDur r = some n) := by
  constructor
  · rintro (h | h | h | h) <;> simp [getDur, h, pyOr, truthy, pyInt]
  · intro n hn h
    have ht : truthy (vInt n) = true := by simp [truthy, hn]
    simp [getDur, h, pyOr, ht, pyInt]

/-- C2 counterexample: a negative `durationSec` of −5 flows into `total_secs`
and into the call's score, and a non-numeric duration string makes the
coercion raise (modelled `none`) instead of defaulting to 0. -/
theorem spec_C2_cex :
    total_secs [mkDurRec (vInt (-5))] = some (-5) ∧
    score_item [] (mkDurRec (vInt (-5))) = some (-5) ∧
    ((-5 : Int) < 0) ∧
    total_secs [mkDurRec (vStr "abc")] = none := by
  decide

/-- C2 witness: the amended coercion rules evaluated at concrete records. -/
theorem spec_C2_witness :
    getDur (mkDurRec vNone) = some 0 ∧ getDur (mkDurRec (vInt (-7))) = some (-7) :=
  ⟨(spec_C2 (mkDurRec vNone)).1 (Or.inr (Or.inl rfl)),
   (spec_C2 (mkDurRec (vInt (-7)))).2 (-7) (by decide) rfl⟩

/-- C3 evaluation at the failing input: the script's `list(found)[:10]` can
enumerate the snippet set in an order (here the reversal, a permutation of the
two distinct snippets) that differs from the order the lines appear in the
transcript, which the spec-side `specFollowupsPerT` preserves. -/
theorem spec_C3 :
    List.Perm (List.reverse [lineD1, lineD2]) [lineD1, lineD2] ∧
    matchedSnippets textD = [lineD1, lineD2] ∧
    extract_followups (fun l => l.reverse) textD = [lineD2, lineD1] ∧
    followupsOf (fun l => l.reverse) textsD = [lineD2, lineD1] ∧
    specFollowupsPerT textD = [lineD1, lineD2] ∧
    lineD1 ≠ lineD2 :=
  ⟨List.reverse_perm _, by decide, by decide, by decide, by decide, by decide⟩

set_option maxRecDepth 40000 in
/-- C4 evaluation at the failing input: two valid set-enumeration orders (the
identity and the reversal, both permutations) render byte-different reports
from identical manifest and transcript inputs. -/
theorem spec_C4 :
    (∀ l : List String, List.Perm (List.reverse l) l) ∧
    renderOf id [] textsD "2026-10-12" ≠
      renderOf (fun l => l.reverse) [] textsD "2026-10-12" :=
  ⟨fun l => List.reverse_perm l, by decide⟩

/-- C5 (amended): for the Scenario B input, `ask_rate` is 0 and the Price
tally is 2 (at least 1, but below the Price rule's threshold of 3); the
follow-up list is exactly the snippet matched by the "i'll send" cue; the
recommendations are the direct-asks rule, the cold-call qualifying rule and
the two-line-pitch rule — the Price-framing rule does not fire. -/
theorem spec_C5 (enum : List String → List String)
    (henum : ∀ l : List String, List.Perm (enum l) l) :
    askRateOf (combinedOf textsB) = 0 ∧
    lookupCount (objectionsOf (combinedOf textsB)) "Price" = 2 ∧
    followupsOf enum textsB = [textB] ∧
    ("i'll send" ∈ cue1 ∧
      existsBounded (lowerList textB.data) (lowerList ("i'll send").data) = true) ∧
    metricsOf itemsB textsB = some (metricsCore itemsB textsB 90) ∧
    recsOf (metricsCore itemsB textsB 90) =
      [recIncreaseAsks, recColdCalls, recTwoLine] := by
  refine ⟨by decide, by decide, ?_, by decide, by decide, by decide⟩
  have hms : dedupFirst (matchedSnippets textB) = [textB] := by decide
  have hen : enum [textB] = [textB] := List.perm_singleton.mp (henum [textB])
  have hf : followupsOf enum textsB = dedupFirst ((enum [textB]).take 10) := by
    simp [followupsOf, extract_followups, hms, concatAll]
  rw [hf, hen]
  decide

/-- C5 counterexample: at the Scenario B input the recommendation list does
not contain the Price-framing rule (nor the raise-frequency wording), against
the claim's "include both". -/
theorem spec_C5_cex :
    lookupCount (objectionsOf (combinedOf textsB)) "Price" = 2 ∧
    recsOf (metricsCore itemsB textsB 90) =
      [recIncreaseAsks, recColdCalls, recTwoLine] ∧
    recPrice ∉ recsOf (metricsCore itemsB textsB 90) ∧
    recRaiseFreq ∉ recsOf (metricsCore itemsB textsB 90) ∧
    total_secs itemsB = some 90 := by
  decide

/-- C5 witness: the amended statement at the identity enumeration. -/
theorem spec_C5_witness :
    followupsOf id textsB = [textB] ∧
    recsOf (metricsCore itemsB textsB 90) =
      [recIncreaseAsks, recColdCalls, recTwoLine] :=
  ⟨(spec_C5 id (fun l => List.Perm.refl l)).2.2.1,
   (spec_C5 id (fun l => List.Perm.refl l)).2.2.2.2.2⟩

/-- C6 (amended): `avg_secs` is 0 when there are no calls (the zero-division
guard); otherwise it is `total_secs/total_calls` truncated toward zero
(`int(...)` on the true quotient), which coincides with Python's floor
division `//` whenever `total_secs` is non-negative. -/
theorem spec_C6 (items : List CallRecord) (ts : Int)
    (h : total_secs items = some ts) :
    (items.length = 0 → avg_secs items = some 0) ∧
    (items.length ≠ 0 → avg_secs items = some (Int.tdiv ts (items.length : Int))) ∧
    (items.length ≠ 0 → 0 ≤ ts →
      avg_secs items = some ((ts.toNat / items.length : Nat) : Int)) := by
  refine ⟨?_, ?_, ?_⟩
  · intro h0; simp [avg_secs, h, h0]
  · intro h0; simp [avg_secs, h, h0]
  · intro h0 hts
    have hdiv : Int.tdiv ts (items.length : Int) = ((ts.toNat / items.length : Nat) : Int) := by
      conv_lhs => rw [← Int.toNat_of_nonneg hts]
      exact (Int.ofNat_tdiv ts.toNat items.length).symm
    simp [avg_secs, h, h0, hdiv]

/-- C6 counterexample: with durations −5 and 0 (reachable, since the coercion
does not clamp), the code's `int(-5/2)` is −2 while the claim's floor division
`-5 // 2` is −3. -/
theorem spec_C6_cex :
    total_secs itemsC6cex = some (-5) ∧ avg_secs itemsC6cex = some (-2) ∧
    Int.fdiv (-5) 2 = -3 ∧ ((-2 : Int) ≠ -3) := by
  decide

/-- C6 witness: the amended statement at a concrete non-negative input. -/
theorem spec_C6_witness :
    avg_secs itemsC6w = some (Int.tdiv 5 (2 : Int)) ∧
    avg_secs itemsC6w = some (((5 / 2 : Nat) : Int)) :=
  ⟨(spec_C6 itemsC6w 5 (by decide)).2.1 (by decide),
   (spec_C6 itemsC6w 5 (by decide)).2.2 (by decide) (by decide)⟩

/-- C7: for every metrics value the recommendation list is non-empty, and when
none of the conditioned rules fires it is exactly the baseline line. -/
theorem spec_C7 (m : Metrics) :
    recsOf m ≠ [] ∧
    (¬(m.ask_rate = 0 ∧ 0 < m.total_calls) →
     ¬(m.ask_rate < max 1 (m.total_calls / 3)) →
     ¬(3 ≤ m.price) → ¬(2 ≤ m.authority) →
     ¬(m.inbound < m.outbound ∧ m.avg_secs < 120) →
     ¬(m.demo_count + m.meeting_count = 0 ∧ 0 < m.total_calls) →
     recsOf m = [recBaseline]) := by
  constructor
  · by_cases h : condRecs m = []
    · simp [recsOf, h]
    · simp [recsOf, h]
  · intro h1 h2 h3 h4 h5 h6
    have hc : condRecs m = [] := by
      unfold condRecs
      rw [if_neg h1, if_neg h2, if_neg h3, if_neg h4, if_neg h5, if_neg h6]
      rfl
    simp [recsOf, hc]

/-- C7 witness: at one ask and nothing else, no conditioned rule fires and the
engine returns exactly the baseline. -/
theorem spec_C7_witness : recsOf mW7 ≠ [] ∧ recsOf mW7 = [recBaseline] :=
  ⟨(spec_C7 mW7).1,
   (spec_C7 mW7).2 (by decide) (by decide) (by decide) (by decide) (by decide)
     (by decide)⟩

/-- C8: keyword counting is case-insensitive (texts equal after lowering count
equally), word-boundary safe ("demoing" does not count for "demo", while
standalone occurrences in any case do), and terms with special characters such
as "sign-off" are matched literally and word-bounded. -/
theorem spec_C8 :
    (∀ (t1 t2 : String) (terms : List String),
      lowerStr t1 = lowerStr t2 →
        count_keywords t1 terms = count_keywords t2 terms) ∧
    count_keywords "demoing" ["demo"] = [("demo", 0)] ∧
    count_keywords "Demo demos DEMO." ["demo"] = [("demo", 2)] ∧
    count_keywords "please sign-off and xsign-off" ["sign-off"] = [("sign-off", 1)] := by
  refine ⟨?_, by decide, by decide, by decide⟩
  intro t1 t2 terms h
  have h' : lowerList t1.data = lowerList t2.data := congrArg String.data h
  simp [count_keywords, h']

/-- C8 witness: the case-insensitivity clause applied at a concrete pair. -/
theorem spec_C8_witness :
    lowerStr "DeMoInG" = lowerStr "demoing" ∧
    count_keywords "DeMoInG" ["demo"] = count_keywords "demoing" ["demo"] :=
  ⟨by decide, spec_C8.1 "DeMoInG" "demoing" ["demo"] (by decide)⟩

/-- C9: when every score is defined, the top-calls list is the first 5 of the
stable descending sort: the sorted list is descending in score, each
equal-score class keeps the original manifest order, and a record's score is
its coerced duration plus the 180 intent boost plus the 240
meeting/demo/quote/proposal boost (case-insensitive substring checks). -/
theorem spec_C9 (texts : List (String × String)) (items : List CallRecord)
    (h : ∀ r ∈ items, (score_item texts r).isSome) :
    top_calls texts items = some ((sortedCalls texts items).take 5) ∧
    List.Sorted (keyRel (scoreD texts)) (sortedCalls texts items) ∧
    (∀ s : Int, (sortedCalls texts items).filter (fun r => scoreD texts r == s) =
      items.filter (fun r => scoreD texts r == s)) ∧
    (∀ r ∈ items, ∀ d : Int, getDur r = some d →
      scoreD texts r =
        d + (if any_phrase (resolvedText texts r) intent_terms then 180 else 0)
          + (if any_phrase (resolvedText texts r) meetingWords then 240 else 0)) := by
  refine ⟨?_, List.sorted_insertionSort _ _,
    fun s => filter_keyRel_insertionSort (scoreD texts) s items, ?_⟩
  · have hall : items.all (fun r => (score_item texts r).isSome) = true :=
      List.all_eq_true.mpr (fun r hr => h r hr)
    simp [top_calls, hall]
  · intro r hr d hd
    simp [scoreD, score_item, hd]

/-- C9 witness: the sort applied to three records (durations 100, 100, 50) —
every score is defined and the top list is the take-5 of the stable sort. -/
theorem spec_C9_witness :
    (∀ r ∈ itemsW9, (score_item textsW9 r).isSome) ∧
    top_calls textsW9 itemsW9 = some ((sortedCalls textsW9 itemsW9).take 5) :=
  ⟨by decide, (spec_C9 textsW9 itemsW9 (by decide)).1⟩

/-- C10: when a record's `file` stem has no transcript entry — in particular
when `file` is absent or empty, whose stem is "" and `read_texts` never
produces the "" key — the ranker resolves the empty transcript, scores the
call as its coerced duration alone without error, and the record still appears
in the ranking's sorted list. -/
theorem spec_C10 (r : CallRecord) (texts : List (String × String))
    (hmiss : texts.find? (fun kv => kv.1 == resolvedStem r) = none) :
    resolvedText texts r = "" ∧
    score_item texts r = getDur r ∧
    ((r.file = none ∨ r.file = some (vStr "")) → resolvedStem r = "") ∧
    (∀ items : List CallRecord, r ∈ items → r ∈ sortedCalls texts items) := by
  have h1 : resolvedText texts r = "" := by
    simp [resolvedText, lookupTexts, hmiss]
  refine ⟨h1, ?_, ?_, ?_⟩
  · have hi : any_phrase "" intent_terms = false := by decide
    have hm : any_phrase "" meetingWords = false := by decide
    simp [score_item, h1, hi, hm]
  · rintro (h | h) <;> simp [resolvedStem, h] <;> decide
  · intro items hmem
    exact (List.perm_insertionSort (keyRel (scoreD texts)) items).mem_iff.mpr hmem

/-- C10 witness: a record without a `file` field, ranked among a singleton
manifest against a transcript map lacking the empty stem. -/
theorem spec_C10_witness :
    resolvedText textsW10 recW10 = "" ∧
    score_item textsW10 recW10 = getDur recW10 ∧
    recW10 ∈ sortedCalls textsW10 [recW10] :=
  ⟨(spec_C10 recW10 textsW10 (by decide)).1,
   (spec_C10 recW10 textsW10 (by decide)).2.1,
   (spec_C10 recW10 textsW10 (by decide)).2.2.2 [recW10] (by decide)⟩
